import Mathlib

/-!
Build-mode controller of `AFortniteCloneCharacter`

A shallow embedding of `Source/FortniteClone/Private/FortniteCloneCharacter.cpp`:
the per-frame `Tick`, the `ShowWall` input handler, `BeginPlay`, and the two
movement relays `MoveForward` / `MoveRight`.

The character, the player state it reaches through its controller, and the part
of the host world the code touches (the preview actors it spawned) are one
explicit state value, `Game`.  Every function returns the new state together
with the list of host calls it issued, in program order.  Dereferencing a null
pointer is a `Fault`.
-/

namespace FortniteClone

/-! ## Host types -/

/-- Engine string type. -/
abbrev FString := String

/-- Engine string comparison `operator==` on `FString`.  The engine implements it
with `Stricmp`, so the comparison ignores letter case; case folding is taken on
the ASCII letters. -/
def FString.Equals (a b : FString) : Bool :=
  a.data.map Char.toLower == b.data.map Char.toLower

/-- Player state subclass of this project: the two fields the character reads
and writes. -/
structure AFortniteClonePlayerState where
  InBuildMode : Bool
  BuildMode : FString
deriving DecidableEq

/-- Dynamic type of the object behind a controller's `PlayerState` pointer. -/
inductive APlayerState where
  | fortniteClone (s : AFortniteClonePlayerState)
  | other
deriving DecidableEq

/-- Controller: only its `PlayerState` pointer is consulted (`none` is null). -/
structure AController where
  PlayerState : Option APlayerState
deriving DecidableEq

/-- Engine `Cast<AFortniteClonePlayerState>`: null for a null pointer and for an
object of another class. -/
def Cast : Option APlayerState → Option AFortniteClonePlayerState
  | some (.fortniteClone s) => some s
  | _ => none

/-- Handle to a spawned preview actor. -/
abbrev ABuildingActor := Nat

/-- Axis of the yaw rotation matrix used as movement direction. -/
inductive EAxis where
  | X
  | Y
deriving DecidableEq

/-- Calls into the host that the modelled functions issue.  `SpawnActor` is
recorded with the handle it returned; the class, location and rotation passed to
it are not modelled. -/
inductive Call where
  | AddOnScreenDebugMessage (msg : String)
  | Destroy (a : ABuildingActor)
  | SpawnActor (result : Option ABuildingActor)
  | AddMovementInput (axis : EAxis) (Value : ℚ)
deriving DecidableEq

/-- Abnormal termination. -/
inductive Fault where
  | nullDereference
deriving DecidableEq

/-- Character together with the host state it acts on.
`Controller` is what `GetController()` returns, `WallPreview` the member pointer,
`live` the preview actors spawned by this character that are not destroyed, and
`spawned` the number of actors spawned so far (the next fresh handle). -/
structure Game where
  Controller : Option AController
  WallPreview : Option ABuildingActor
  live : List ABuildingActor
  spawned : Nat
deriving DecidableEq

/-- Host `AActor::Destroy`: the actor stops being live; on an actor that is no
longer live nothing changes. -/
def Game.DestroyActor (g : Game) (a : ABuildingActor) : Game :=
  { g with live := g.live.filter (fun b => b != a) }

/-- Host `UWorld::SpawnActor`: on success a fresh live actor, on failure null. -/
def Game.SpawnActor (g : Game) (succeeds : Bool) : Option ABuildingActor × Game :=
  if succeeds then
    (some g.spawned, { g with live := g.live ++ [g.spawned], spawned := g.spawned + 1 })
  else
    (none, g)

/-- Write through the `State` pointer: the player state object behind the
controller is replaced by `st`. -/
def Game.setState (g : Game) (st : AFortniteClonePlayerState) : Game :=
  match g.Controller with
  | none => g
  | some _ => { g with Controller := some { PlayerState := some (.fortniteClone st) } }

/-! ## The character's functions -/

/-- `AFortniteCloneCharacter::BeginPlay`.  The base-class call touches none of
the modelled state. -/
def BeginPlay (g : Game) : Game :=
  { g with WallPreview := none }

/-- `AFortniteCloneCharacter::Tick`.  `spawnSucceeds` is the host's answer to the
spawn request of this frame, should one be made.  `DeltaTime` is only handed to
the base-class `Tick`, which touches none of the modelled state. -/
def Tick (g : Game) (_DeltaTime : ℚ) (spawnSucceeds : Bool) :
    Except Fault (Game × List Call) :=
  match g.Controller with
  | none => .error .nullDereference
  | some ctl =>
    match Cast ctl.PlayerState with
    | none => .ok (g, [])
    | some State =>
      if State.InBuildMode && FString.Equals State.BuildMode "Wall" then
        match g.WallPreview with
        | some a =>
          let r := (g.DestroyActor a).SpawnActor spawnSucceeds
          .ok ({ r.2 with WallPreview := r.1 }, [Call.Destroy a, Call.SpawnActor r.1])
        | none =>
          let r := g.SpawnActor spawnSucceeds
          .ok ({ r.2 with WallPreview := r.1 }, [Call.SpawnActor r.1])
      else
        .ok (g, [])

/-- `AFortniteCloneCharacter::ShowWall`.  The debug message is issued first; when
the controller is null the function does not return and the result is the
fault. -/
def ShowWall (g : Game) : Except Fault (Game × List Call) :=
  match g.Controller with
  | none => .error .nullDereference
  | some ctl =>
    match Cast ctl.PlayerState with
    | none => .ok (g, [Call.AddOnScreenDebugMessage "x key pressed"])
    | some State =>
      if FString.Equals State.BuildMode "Wall" then
        let g1 := g.setState { State with InBuildMode := false, BuildMode := "None" }
        match g1.WallPreview with
        | some a =>
          .ok (g1.DestroyActor a, [Call.AddOnScreenDebugMessage "x key pressed", Call.Destroy a])
        | none => .ok (g1, [Call.AddOnScreenDebugMessage "x key pressed"])
      else if State.InBuildMode then
        .ok (g.setState { State with BuildMode := "Wall" },
          [Call.AddOnScreenDebugMessage "x key pressed"])
      else
        .ok (g.setState { State with InBuildMode := true, BuildMode := "Wall" },
          [Call.AddOnScreenDebugMessage "x key pressed"])

/-- `AFortniteCloneCharacter::MoveForward`.  The axis value is a rational here;
the direction handed to `AddMovementInput` is recorded by its axis. -/
def MoveForward (g : Game) (Value : ℚ) : Game × List Call :=
  if g.Controller.isSome && Value != 0 then
    (g, [Call.AddMovementInput EAxis.X Value])
  else
    (g, [])

/-- `AFortniteCloneCharacter::MoveRight`. -/
def MoveRight (g : Game) (Value : ℚ) : Game × List Call :=
  if g.Controller.isSome && Value != 0 then
    (g, [Call.AddMovementInput EAxis.Y Value])
  else
    (g, [])

/-! ## Event sequences -/

/-- What the host delivers to the character: a frame update or a press of the
key bound to `ShowWall`. -/
inductive Event where
  | tick (DeltaTime : ℚ) (spawnSucceeds : Bool)
  | toggle
deriving DecidableEq

/-- One event. -/
def step (g : Game) : Event → Except Fault (Game × List Call)
  | .tick dt ok => Tick g dt ok
  | .toggle => ShowWall g

/-- A sequence of events, left to right; the calls of all events are collected
in order. -/
def run (g : Game) : List Event → Except Fault (Game × List Call)
  | [] => .ok (g, [])
  | e :: es =>
    match step g e with
    | .error f => .error f
    | .ok (g1, c1) =>
      match run g1 es with
      | .error f => .error f
      | .ok (g2, c2) => .ok (g2, c1 ++ c2)

/-- Player state reached through `GetController()->PlayerState` and the cast,
when both pointers are non-null. -/
def playerState (g : Game) : Option AFortniteClonePlayerState :=
  match g.Controller with
  | none => none
  | some ctl => Cast ctl.PlayerState

/-- Condition under which `Tick` maintains the wall preview. -/
def wallPreviewCondition (g : Game) : Bool :=
  match playerState g with
  | none => false
  | some st => st.InBuildMode && FString.Equals st.BuildMode "Wall"

/-- Number of spawn requests among the calls. -/
def spawnCount (calls : List Call) : Nat :=
  (calls.filter (fun c => match c with | .SpawnActor _ => true | _ => false)).length

/-- Number of destroy requests among the calls. -/
def destroyCount (calls : List Call) : Nat :=
  (calls.filter (fun c => match c with | .Destroy _ => true | _ => false)).length

/-- Every destroy request among `calls` names an actor that is live in `g`. -/
def destroysAreLive (g : Game) (calls : List Call) : Bool :=
  calls.all (fun c => match c with | .Destroy a => g.live.contains a | _ => true)

/-- Along the run of `es` from `g`, every destroy request names an actor that is
live when the function issuing it is entered.  Each function issues at most one
destroy request and issues it before any spawn, so this is liveness at the
moment of the call. -/
def destroysLiveAlong (g : Game) : List Event → Bool
  | [] => true
  | e :: es =>
    match step g e with
    | .error _ => true
    | .ok (g1, c1) => destroysAreLive g c1 && destroysLiveAlong g1 es

/-- Character possessed by a controller whose player state is `st`. -/
def possessed (st : AFortniteClonePlayerState) (preview : Option ABuildingActor)
    (live : List ABuildingActor) (spawned : Nat) : Game :=
  { Controller := some { PlayerState := some (.fortniteClone st) },
    WallPreview := preview, live := live, spawned := spawned }

/-- State right after `BeginPlay` of a freshly possessed character that is not
in build mode. -/
def start : Game :=
  BeginPlay (possessed { InBuildMode := false, BuildMode := "None" } none [] 0)

/-- Character without a controller. -/
def unpossessed : Game :=
  { Controller := none, WallPreview := none, live := [], spawned := 0 }

/-! ## Evaluation lemmas -/

theorem Equals_Wall_Wall : FString.Equals "Wall" "Wall" = true := by decide

theorem Equals_None_Wall : FString.Equals "None" "Wall" = false := by decide

/-- First branch of `ShowWall`, spelled out. -/
theorem ShowWall_wall_eq (c : Option AController) (p : Option ABuildingActor)
    (l : List ABuildingActor) (n : Nat) (ctl : AController) (st : AFortniteClonePlayerState)
    (hc : c = some ctl) (hs : Cast ctl.PlayerState = some st)
    (hm : FString.Equals st.BuildMode "Wall" = true) :
    ShowWall ⟨c, p, l, n⟩ =
      match p with
      | some a => .ok (⟨some ⟨some (.fortniteClone ⟨false, "None"⟩)⟩, p,
          l.filter (fun b => b != a), n⟩,
          [Call.AddOnScreenDebugMessage "x key pressed", Call.Destroy a])
      | none => .ok (⟨some ⟨some (.fortniteClone ⟨false, "None"⟩)⟩, p, l, n⟩,
          [Call.AddOnScreenDebugMessage "x key pressed"]) := by
  subst hc
  cases p <;> simp [ShowWall, hs, hm, Game.setState, Game.DestroyActor]

/-- Second and third branch of `ShowWall`, spelled out. -/
theorem ShowWall_other_eq (c : Option AController) (p : Option ABuildingActor)
    (l : List ABuildingActor) (n : Nat) (ctl : AController) (st : AFortniteClonePlayerState)
    (hc : c = some ctl) (hs : Cast ctl.PlayerState = some st)
    (hm : FString.Equals st.BuildMode "Wall" = false) :
    ShowWall ⟨c, p, l, n⟩ =
      .ok (⟨some ⟨some (.fortniteClone ⟨true, "Wall"⟩)⟩, p, l, n⟩,
        [Call.AddOnScreenDebugMessage "x key pressed"]) := by
  subst hc
  cases hb : st.InBuildMode <;> simp [ShowWall, hs, hm, hb, Game.setState]

/-- The branch of `Tick` that maintains the preview, spelled out. -/
theorem Tick_wall_eq (c : Option AController) (p : Option ABuildingActor)
    (l : List ABuildingActor) (n : Nat) (ctl : AController) (st : AFortniteClonePlayerState)
    (dt : ℚ) (ok : Bool)
    (hc : c = some ctl) (hs : Cast ctl.PlayerState = some st)
    (hb : st.InBuildMode = true) (hm : FString.Equals st.BuildMode "Wall" = true) :
    Tick ⟨c, p, l, n⟩ dt ok =
      match p, ok with
      | some a, true => .ok (⟨c, some n, l.filter (fun b => b != a) ++ [n], n + 1⟩,
          [Call.Destroy a, Call.SpawnActor (some n)])
      | some a, false => .ok (⟨c, none, l.filter (fun b => b != a), n⟩,
          [Call.Destroy a, Call.SpawnActor none])
      | none, true => .ok (⟨c, some n, l ++ [n], n + 1⟩, [Call.SpawnActor (some n)])
      | none, false => .ok (⟨c, none, l, n⟩, [Call.SpawnActor none]) := by
  subst hc
  cases p <;> cases ok <;>
    simp [Tick, hs, hm, hb, Game.SpawnActor, Game.DestroyActor]

/-- The branches of `Tick` that do nothing, spelled out. -/
theorem Tick_idle_eq (g : Game) (ctl : AController) (dt : ℚ) (ok : Bool)
    (hc : g.Controller = some ctl)
    (h : ∀ st, Cast ctl.PlayerState = some st →
      st.InBuildMode = false ∨ FString.Equals st.BuildMode "Wall" = false) :
    Tick g dt ok = .ok (g, []) := by
  cases hs : Cast ctl.PlayerState with
  | none => simp [Tick, hc, hs]
  | some st => rcases h st hs with h1 | h1 <;> simp [Tick, hc, hs, h1]

/-! ## Single events -/

/-- C1. With a controller whose player state has `InBuildMode = true` and a build
mode that compares equal to "Wall", `ShowWall` returns normally, leaves the
player state at `InBuildMode = false`, `BuildMode = "None"`, issues a `Destroy`
on the actor behind `WallPreview` when that pointer is set (after which the
actor is not live), and issues no spawn request: no actor is created. -/
theorem ShowWall_leaves_wall_mode (g : Game) (ctl : AController)
    (st : AFortniteClonePlayerState)
    (hc : g.Controller = some ctl) (hs : Cast ctl.PlayerState = some st)
    (hb : st.InBuildMode = true) (hm : FString.Equals st.BuildMode "Wall" = true) :
    ∃ g1 calls, ShowWall g = .ok (g1, calls) ∧
      playerState g1 = some { InBuildMode := false, BuildMode := "None" } ∧
      (∀ a, g.WallPreview = some a → Call.Destroy a ∈ calls ∧ a ∉ g1.live) ∧
      (g.WallPreview = none → destroyCount calls = 0) ∧
      spawnCount calls = 0 ∧ g1.spawned = g.spawned ∧ (∀ b, b ∈ g1.live → b ∈ g.live) := by
  have _ := hb
  obtain ⟨c, p, l, n⟩ := g
  rw [ShowWall_wall_eq c p l n ctl st hc hs hm]
  cases p with
  | none => exact ⟨_, _, rfl, by simp [playerState, Cast, spawnCount, destroyCount]⟩
  | some a =>
    refine ⟨_, _, rfl, ?_⟩
    simp only [playerState, Cast, spawnCount, destroyCount]
    simp
    intro b hb1 _
    exact hb1

/-- C2. With a controller whose player state has `InBuildMode = false` and a build
mode that does not compare equal to "Wall", `ShowWall` returns normally with
`InBuildMode = true`, `BuildMode = "Wall"`; it issues neither a spawn nor a
destroy request, and `WallPreview` and the live actors are as before. -/
theorem ShowWall_enters_wall_mode (g : Game) (ctl : AController)
    (st : AFortniteClonePlayerState)
    (hc : g.Controller = some ctl) (hs : Cast ctl.PlayerState = some st)
    (hb : st.InBuildMode = false) (hm : FString.Equals st.BuildMode "Wall" = false) :
    ∃ g1 calls, ShowWall g = .ok (g1, calls) ∧
      playerState g1 = some { InBuildMode := true, BuildMode := "Wall" } ∧
      spawnCount calls = 0 ∧ destroyCount calls = 0 ∧
      g1.WallPreview = g.WallPreview ∧ g1.live = g.live ∧ g1.spawned = g.spawned := by
  have _ := hb
  obtain ⟨c, p, l, n⟩ := g
  rw [ShowWall_other_eq c p l n ctl st hc hs hm]
  exact ⟨_, _, rfl, by simp [playerState, Cast, spawnCount, destroyCount]⟩

/-- C3. With a controller whose player state has `InBuildMode = true` and a build
mode that does not compare equal to "Wall", `ShowWall` returns normally with
`BuildMode = "Wall"` and `InBuildMode` as it was (true); it issues neither a
spawn nor a destroy request, and `WallPreview` and the live actors are as
before. -/
theorem ShowWall_switches_to_wall (g : Game) (ctl : AController)
    (st : AFortniteClonePlayerState)
    (hc : g.Controller = some ctl) (hs : Cast ctl.PlayerState = some st)
    (hb : st.InBuildMode = true) (hm : FString.Equals st.BuildMode "Wall" = false) :
    ∃ g1 calls, ShowWall g = .ok (g1, calls) ∧
      playerState g1 = some { InBuildMode := st.InBuildMode, BuildMode := "Wall" } ∧
      spawnCount calls = 0 ∧ destroyCount calls = 0 ∧
      g1.WallPreview = g.WallPreview ∧ g1.live = g.live ∧ g1.spawned = g.spawned := by
  obtain ⟨c, p, l, n⟩ := g
  rw [ShowWall_other_eq c p l n ctl st hc hs hm]
  exact ⟨_, _, rfl, by simp [playerState, Cast, spawnCount, destroyCount, hb]⟩

/-- C4. With a controller whose player state has `InBuildMode = true` and a build
mode that compares equal to "Wall", `Tick` returns normally; its calls are a
`Destroy` of the actor behind `WallPreview` when that pointer is set, followed by
exactly one `SpawnActor`; `WallPreview` becomes the result of that spawn; the
live actors are the old ones without the destroyed actor plus the spawned one;
the player state is unchanged. -/
theorem Tick_respawns_preview (g : Game) (ctl : AController)
    (st : AFortniteClonePlayerState) (dt : ℚ) (ok : Bool)
    (hc : g.Controller = some ctl) (hs : Cast ctl.PlayerState = some st)
    (hb : st.InBuildMode = true) (hm : FString.Equals st.BuildMode "Wall" = true) :
    ∃ g1 calls r, Tick g dt ok = .ok (g1, calls) ∧
      r = (if ok then some g.spawned else none) ∧
      calls = (match g.WallPreview with
        | some a => [Call.Destroy a]
        | none => []) ++ [Call.SpawnActor r] ∧
      spawnCount calls = 1 ∧
      g1.WallPreview = r ∧
      (∀ b, b ∈ g1.live ↔ (b ∈ g.live ∧ some b ≠ g.WallPreview) ∨ some b = r) ∧
      playerState g1 = some st := by
  obtain ⟨c, p, l, n⟩ := g
  rw [Tick_wall_eq c p l n ctl st dt ok hc hs hb hm]
  simp only at hc
  subst hc
  cases p <;> cases ok <;> refine ⟨_, _, _, rfl, rfl, ?_⟩ <;>
    simp [playerState, hs, spawnCount]

/-- C5. With a controller and a player state for which the wall-preview condition
fails (`InBuildMode = false`, or the build mode does not compare equal to
"Wall"), `Tick` returns normally, issues no call at all, and returns the state
it was given. -/
theorem Tick_noop_outside_wall_mode (g : Game) (ctl : AController)
    (st : AFortniteClonePlayerState) (dt : ℚ) (ok : Bool)
    (hc : g.Controller = some ctl) (hs : Cast ctl.PlayerState = some st)
    (h : st.InBuildMode = false ∨ FString.Equals st.BuildMode "Wall" = false) :
    Tick g dt ok = .ok (g, []) := by
  rcases h with h | h <;> simp [Tick, hc, hs, h]

/-- C6. From a state with `InBuildMode = false`, `BuildMode = "None"`, a null
`WallPreview` and no live preview actor, two `ShowWall` events in a row return
normally to `InBuildMode = false`, `BuildMode = "None"` with `WallPreview` still
null, no live preview actor, and no spawn or destroy request issued. -/
theorem ShowWall_twice_from_idle (g : Game) (ctl : AController)
    (st : AFortniteClonePlayerState)
    (hc : g.Controller = some ctl) (hs : Cast ctl.PlayerState = some st)
    (hb : st.InBuildMode = false) (hm : st.BuildMode = "None")
    (hp : g.WallPreview = none) (hl : g.live = []) :
    ∃ g2 calls, run g [Event.toggle, Event.toggle] = .ok (g2, calls) ∧
      playerState g2 = some { InBuildMode := false, BuildMode := "None" } ∧
      g2.WallPreview = none ∧ g2.live = [] ∧
      spawnCount calls = 0 ∧ destroyCount calls = 0 := by
  have _ := hb
  have hne : FString.Equals st.BuildMode "Wall" = false := by rw [hm]; exact Equals_None_Wall
  obtain ⟨c, p, l, n⟩ := g
  simp only at hp hl
  subst hp hl
  have h1 := ShowWall_other_eq c none [] n ctl st hc hs hne
  have h2 := ShowWall_wall_eq (some ⟨some (.fortniteClone ⟨true, "Wall"⟩)⟩) none [] n
    ⟨some (.fortniteClone ⟨true, "Wall"⟩)⟩ ⟨true, "Wall"⟩ rfl rfl Equals_Wall_Wall
  refine ⟨⟨some ⟨some (.fortniteClone ⟨false, "None"⟩)⟩, none, [], n⟩,
    [Call.AddOnScreenDebugMessage "x key pressed",
      Call.AddOnScreenDebugMessage "x key pressed"], ?_, ?_⟩
  · simp only [run, step, h1, h2, List.cons_append, List.nil_append]
  · simp [playerState, Cast, spawnCount, destroyCount]

/-! ## Event sequences: the live preview -/

/-- Live previews are accounted for: a live preview actor exists only under the
wall-preview condition, and then it is the one `WallPreview` points to and the
only one. -/
def previewAccounted (g : Game) : Prop :=
  ∀ a ∈ g.live, wallPreviewCondition g = true ∧ g.WallPreview = some a ∧ g.live = [a]

theorem previewAccounted_cases (g : Game) (h : previewAccounted g) :
    g.live = [] ∨
      (wallPreviewCondition g = true ∧ ∃ a, g.WallPreview = some a ∧ g.live = [a]) := by
  cases hl : g.live with
  | nil => exact Or.inl rfl
  | cons a t =>
    have := h a (by simp [hl])
    exact Or.inr ⟨this.1, a, this.2.1, by rw [← hl]; exact this.2.2⟩

theorem ShowWall_nostate_eq (g : Game) (ctl : AController)
    (hc : g.Controller = some ctl) (hs : Cast ctl.PlayerState = none) :
    ShowWall g = .ok (g, [Call.AddOnScreenDebugMessage "x key pressed"]) := by
  simp [ShowWall, hc, hs]

/-- One event from a state with a controller returns normally, keeps the
controller, and keeps the live previews accounted for. -/
theorem step_previewAccounted (g : Game) (e : Event) (hc : g.Controller ≠ none)
    (hI : previewAccounted g) :
    ∃ g1 calls, step g e = .ok (g1, calls) ∧ g1.Controller ≠ none ∧ previewAccounted g1 := by
  have hcases := previewAccounted_cases g hI
  obtain ⟨c, p, l, n⟩ := g
  cases c with
  | none => exact absurd rfl hc
  | some ctl =>
  cases hs : Cast ctl.PlayerState with
  | none =>
    cases e with
    | tick dt ok =>
      refine ⟨_, _, Tick_idle_eq ⟨some ctl, p, l, n⟩ ctl dt ok rfl ?_, hc, hI⟩
      intro st hst
      rw [hs] at hst
      cases hst
    | toggle => exact ⟨_, _, ShowWall_nostate_eq ⟨some ctl, p, l, n⟩ ctl rfl hs, hc, hI⟩
  | some st =>
  have hw : wallPreviewCondition ⟨some ctl, p, l, n⟩
      = (st.InBuildMode && FString.Equals st.BuildMode "Wall") := by
    simp [wallPreviewCondition, playerState, hs]
  cases e with
  | tick dt ok =>
    cases hwc : (st.InBuildMode && FString.Equals st.BuildMode "Wall") with
    | false =>
      refine ⟨_, _, Tick_idle_eq ⟨some ctl, p, l, n⟩ ctl dt ok rfl ?_, hc, hI⟩
      intro st1 hst
      rw [hs] at hst
      cases hst
      cases hb : st.InBuildMode
      · exact Or.inl rfl
      · right
        simpa [hb] using hwc
    | true =>
      have hb : st.InBuildMode = true := by
        cases hb : st.InBuildMode
        · simp [hb] at hwc
        · rfl
      have hm : FString.Equals st.BuildMode "Wall" = true := by simpa [hb] using hwc
      have hwn : ∀ p1 l1 n1, wallPreviewCondition ⟨some ctl, p1, l1, n1⟩ = true := by
        intro p1 l1 n1
        simp [wallPreviewCondition, playerState, hs, hb, hm]
      rw [step, Tick_wall_eq (some ctl) p l n ctl st dt ok rfl hs hb hm]
      have hfil : ∀ a, p = some a → l.filter (fun b => b != a) = [] := by
        intro a hpa
        rcases hcases with h0 | ⟨_, a1, h1, h2⟩
        · simp only at h0
          simp [h0]
        · simp only at h1 h2
          rw [hpa] at h1
          cases h1
          simp [h2]
      have hnil : p = none → l = [] := by
        intro hpn
        rcases hcases with h0 | ⟨_, a1, h1, _⟩
        · exact h0
        · simp only at h1
          rw [hpn] at h1
          cases h1
      cases p with
      | none =>
        have hl := hnil rfl
        subst hl
        cases ok
        · exact ⟨_, _, rfl, by simp, by simp [previewAccounted]⟩
        · refine ⟨_, _, rfl, by simp, ?_⟩
          intro a ha
          simp only [List.nil_append, List.mem_singleton] at ha
          subst ha
          exact ⟨hwn _ _ _, rfl, rfl⟩
      | some a0 =>
        have hf := hfil a0 rfl
        cases ok
        · refine ⟨_, _, rfl, by simp, ?_⟩
          intro a ha
          simp only [hf] at ha
          cases ha
        · refine ⟨_, _, rfl, by simp, ?_⟩
          intro a ha
          simp only [hf, List.nil_append, List.mem_singleton] at ha
          subst ha
          exact ⟨hwn _ _ _, rfl, by simp only [hf, List.nil_append]⟩
  | toggle =>
    cases hm : FString.Equals st.BuildMode "Wall" with
    | true =>
      rw [step, ShowWall_wall_eq (some ctl) p l n ctl st rfl hs hm]
      cases p with
      | none =>
        refine ⟨_, _, rfl, by simp, ?_⟩
        rcases hcases with h0 | ⟨_, a1, h1, _⟩
        · simp only at h0
          subst h0
          simp [previewAccounted]
        · cases h1
      | some a0 =>
        refine ⟨_, _, rfl, by simp, ?_⟩
        rcases hcases with h0 | ⟨_, a1, h1, h2⟩
        · simp only at h0
          subst h0
          simp [previewAccounted]
        · simp only at h1 h2
          cases h1
          subst h2
          simp [previewAccounted]
    | false =>
      rw [step, ShowWall_other_eq (some ctl) p l n ctl st rfl hs hm]
      refine ⟨_, _, rfl, by simp, ?_⟩
      rcases hcases with h0 | ⟨h1, _⟩
      · simp only at h0
        subst h0
        simp [previewAccounted]
      · rw [hw, hm] at h1
        simp at h1

/-- Every event sequence from a state with a controller and accounted live
previews runs to completion and ends in such a state. -/
theorem run_previewAccounted (es : List Event) :
    ∀ g : Game, g.Controller ≠ none → previewAccounted g →
      ∃ g1 calls, run g es = .ok (g1, calls) ∧ previewAccounted g1 := by
  induction es with
  | nil => exact fun g _ hI => ⟨g, [], rfl, hI⟩
  | cons e es ih =>
    intro g hne hI
    obtain ⟨g1, c1, h1, hne1, hI1⟩ := step_previewAccounted g e hne hI
    obtain ⟨g2, c2, h2, hI2⟩ := ih g1 hne1 hI1
    exact ⟨g2, c1 ++ c2, by simp only [run, h1, h2], hI2⟩

/-- C9. From a state with a controller whose player state is idle
(`InBuildMode = false`, build mode not comparing equal to "Wall"), a null
`WallPreview` and no live preview actor, every sequence of `Tick` and `ShowWall`
events runs to completion, and in the state it ends in every live preview actor
exists under the wall-preview condition, is the actor `WallPreview` points to,
and is the only live preview actor. -/
theorem live_preview_accounted (g : Game) (ctl : AController)
    (st : AFortniteClonePlayerState) (es : List Event)
    (hc : g.Controller = some ctl) (hs : Cast ctl.PlayerState = some st)
    (hb : st.InBuildMode = false) (hm : FString.Equals st.BuildMode "Wall" = false)
    (hp : g.WallPreview = none) (hl : g.live = []) :
    ∃ g1 calls, run g es = .ok (g1, calls) ∧
      ∀ a ∈ g1.live,
        wallPreviewCondition g1 = true ∧ g1.WallPreview = some a ∧ g1.live = [a] := by
  have _ := hs
  have _ := hb
  have _ := hm
  have _ := hp
  have hne : g.Controller ≠ none := by simp [hc]
  have hI : previewAccounted g := by
    intro a ha
    rw [hl] at ha
    cases ha
  exact run_previewAccounted es g hne hI

/-! ## Stale handle and missing null check -/

/-- C7. Evaluation at the failing input: from the start state, `ShowWall`, a `Tick`
whose spawn succeeds, and `ShowWall` again end with `InBuildMode = false`,
`BuildMode = "None"`, no live preview actor, and `WallPreview` still pointing to
the destroyed actor 0. -/
theorem handle_outlives_wall_mode :
    run start [Event.toggle, Event.tick 0 true, Event.toggle] =
      .ok (possessed { InBuildMode := false, BuildMode := "None" } (some 0) [] 1,
        [Call.AddOnScreenDebugMessage "x key pressed", Call.SpawnActor (some 0),
          Call.AddOnScreenDebugMessage "x key pressed", Call.Destroy 0]) ∧
    wallPreviewCondition
      (possessed { InBuildMode := false, BuildMode := "None" } (some 0) [] 1) = false := by
  exact ⟨rfl, rfl⟩

/-- Without a controller, whatever the rest of the state: the two movement relays
do nothing, `Tick` and `ShowWall` dereference the null controller. -/
theorem null_controller_general (p : Option ABuildingActor) (l : List ABuildingActor)
    (n : Nat) (dt Value : ℚ) (ok : Bool) :
    Tick ⟨none, p, l, n⟩ dt ok = .error Fault.nullDereference ∧
    ShowWall ⟨none, p, l, n⟩ = .error Fault.nullDereference ∧
    MoveForward ⟨none, p, l, n⟩ Value = (⟨none, p, l, n⟩, []) ∧
    MoveRight ⟨none, p, l, n⟩ Value = (⟨none, p, l, n⟩, []) := by
  exact ⟨rfl, rfl, rfl, rfl⟩

/-- C8. Evaluation at the failing input: on a character without a controller
`MoveForward` and `MoveRight` do nothing, while `Tick` and `ShowWall` dereference
the null controller. -/
theorem null_controller_faults :
    Tick unpossessed 0 true = .error Fault.nullDereference ∧
    ShowWall unpossessed = .error Fault.nullDereference ∧
    MoveForward unpossessed 1 = (unpossessed, []) ∧
    MoveRight unpossessed 1 = (unpossessed, []) := by
  exact ⟨rfl, rfl, rfl, rfl⟩

/-- C10. Evaluation at the failing input: after `ShowWall`, a `Tick` whose spawn
succeeds, `ShowWall`, `ShowWall` the state is in wall mode with no live preview
actor and `WallPreview` pointing to the destroyed actor 0; the next `Tick` issues
`Destroy` on actor 0, which is not live. -/
theorem destroy_through_stale_handle :
    run start [Event.toggle, Event.tick 0 true, Event.toggle, Event.toggle] =
      .ok (possessed { InBuildMode := true, BuildMode := "Wall" } (some 0) [] 1,
        [Call.AddOnScreenDebugMessage "x key pressed", Call.SpawnActor (some 0),
          Call.AddOnScreenDebugMessage "x key pressed", Call.Destroy 0,
          Call.AddOnScreenDebugMessage "x key pressed"]) ∧
    Tick (possessed { InBuildMode := true, BuildMode := "Wall" } (some 0) [] 1) 0 true =
      .ok (possessed { InBuildMode := true, BuildMode := "Wall" } (some 1) [1] 2,
        [Call.Destroy 0, Call.SpawnActor (some 1)]) ∧
    destroysLiveAlong start
      [Event.toggle, Event.tick 0 true, Event.toggle, Event.toggle, Event.tick 0 true]
        = false := by
  exact ⟨rfl, rfl, by decide⟩

/-! ## Concrete instances -/

/-- Instance of C1: wall mode with a live preview 7. -/
theorem ShowWall_leaves_wall_mode_witness :
    FString.Equals "Wall" "Wall" = true ∧
    ∃ g1 calls, ShowWall (possessed ⟨true, "Wall"⟩ (some 7) [7] 8) = .ok (g1, calls) ∧
      playerState g1 = some { InBuildMode := false, BuildMode := "None" } ∧
      (∀ a, (possessed ⟨true, "Wall"⟩ (some 7) [7] 8).WallPreview = some a →
        Call.Destroy a ∈ calls ∧ a ∉ g1.live) ∧
      ((possessed ⟨true, "Wall"⟩ (some 7) [7] 8).WallPreview = none → destroyCount calls = 0) ∧
      spawnCount calls = 0 ∧
      g1.spawned = (possessed ⟨true, "Wall"⟩ (some 7) [7] 8).spawned ∧
      (∀ b, b ∈ g1.live → b ∈ (possessed ⟨true, "Wall"⟩ (some 7) [7] 8).live) :=
  ⟨by decide,
    ShowWall_leaves_wall_mode (possessed ⟨true, "Wall"⟩ (some 7) [7] 8)
      ⟨some (.fortniteClone ⟨true, "Wall"⟩)⟩ ⟨true, "Wall"⟩ rfl rfl rfl (by decide)⟩

/-- Instance of C2: idle with build mode "None". -/
theorem ShowWall_enters_wall_mode_witness :
    FString.Equals "None" "Wall" = false ∧
    ∃ g1 calls, ShowWall (possessed ⟨false, "None"⟩ none [] 0) = .ok (g1, calls) ∧
      playerState g1 = some { InBuildMode := true, BuildMode := "Wall" } ∧
      spawnCount calls = 0 ∧ destroyCount calls = 0 ∧
      g1.WallPreview = (possessed ⟨false, "None"⟩ none [] 0).WallPreview ∧
      g1.live = (possessed ⟨false, "None"⟩ none [] 0).live ∧
      g1.spawned = (possessed ⟨false, "None"⟩ none [] 0).spawned :=
  ⟨by decide,
    ShowWall_enters_wall_mode (possessed ⟨false, "None"⟩ none [] 0)
      ⟨some (.fortniteClone ⟨false, "None"⟩)⟩ ⟨false, "None"⟩ rfl rfl rfl (by decide)⟩

/-- Instance of C3: build mode active with the variant "Floor". -/
theorem ShowWall_switches_to_wall_witness :
    FString.Equals "Floor" "Wall" = false ∧
    ∃ g1 calls, ShowWall (possessed ⟨true, "Floor"⟩ none [] 0) = .ok (g1, calls) ∧
      playerState g1 = some { InBuildMode := true, BuildMode := "Wall" } ∧
      spawnCount calls = 0 ∧ destroyCount calls = 0 ∧
      g1.WallPreview = (possessed ⟨true, "Floor"⟩ none [] 0).WallPreview ∧
      g1.live = (possessed ⟨true, "Floor"⟩ none [] 0).live ∧
      g1.spawned = (possessed ⟨true, "Floor"⟩ none [] 0).spawned :=
  ⟨by decide,
    ShowWall_switches_to_wall (possessed ⟨true, "Floor"⟩ none [] 0)
      ⟨some (.fortniteClone ⟨true, "Floor"⟩)⟩ ⟨true, "Floor"⟩ rfl rfl rfl (by decide)⟩

/-- Instance of C4: wall mode with a live preview 7, spawn succeeding. -/
theorem Tick_respawns_preview_witness :
    FString.Equals "Wall" "Wall" = true ∧
    ∃ g1 calls r, Tick (possessed ⟨true, "Wall"⟩ (some 7) [7] 8) 0 true = .ok (g1, calls) ∧
      r = (if true then some (possessed ⟨true, "Wall"⟩ (some 7) [7] 8).spawned else none) ∧
      calls = (match (possessed ⟨true, "Wall"⟩ (some 7) [7] 8).WallPreview with
        | some a => [Call.Destroy a]
        | none => []) ++ [Call.SpawnActor r] ∧
      spawnCount calls = 1 ∧
      g1.WallPreview = r ∧
      (∀ b, b ∈ g1.live ↔
        (b ∈ (possessed ⟨true, "Wall"⟩ (some 7) [7] 8).live ∧
          some b ≠ (possessed ⟨true, "Wall"⟩ (some 7) [7] 8).WallPreview) ∨ some b = r) ∧
      playerState g1 = some ⟨true, "Wall"⟩ :=
  ⟨by decide,
    Tick_respawns_preview (possessed ⟨true, "Wall"⟩ (some 7) [7] 8)
      ⟨some (.fortniteClone ⟨true, "Wall"⟩)⟩ ⟨true, "Wall"⟩ 0 true rfl rfl rfl (by decide)⟩

/-- Instance of C5: idle with a stale handle and spawn available. -/
theorem Tick_noop_outside_wall_mode_witness :
    FString.Equals "None" "Wall" = false ∧
    Tick (possessed ⟨false, "None"⟩ (some 0) [] 1) 0 true =
      .ok (possessed ⟨false, "None"⟩ (some 0) [] 1, []) :=
  ⟨by decide,
    Tick_noop_outside_wall_mode (possessed ⟨false, "None"⟩ (some 0) [] 1)
      ⟨some (.fortniteClone ⟨false, "None"⟩)⟩ ⟨false, "None"⟩ 0 true rfl rfl (Or.inl rfl)⟩

/-- Instance of C6: the start state. -/
theorem ShowWall_twice_from_idle_witness :
    start.WallPreview = none ∧ start.live = [] ∧
    ∃ g2 calls, run start [Event.toggle, Event.toggle] = .ok (g2, calls) ∧
      playerState g2 = some { InBuildMode := false, BuildMode := "None" } ∧
      g2.WallPreview = none ∧ g2.live = [] ∧
      spawnCount calls = 0 ∧ destroyCount calls = 0 :=
  ⟨rfl, rfl,
    ShowWall_twice_from_idle start ⟨some (.fortniteClone ⟨false, "None"⟩)⟩ ⟨false, "None"⟩
      rfl rfl rfl rfl rfl rfl⟩

/-- Instance of C9: the start state and a sequence that leaves and re-enters wall
mode with a stale handle, with a failed spawn on the way. -/
theorem live_preview_accounted_witness :
    start.WallPreview = none ∧ start.live = [] ∧
    ∃ g1 calls,
      run start [Event.toggle, Event.tick 0 true, Event.toggle, Event.toggle,
        Event.tick 0 false, Event.tick 0 true] = .ok (g1, calls) ∧
      ∀ a ∈ g1.live,
        wallPreviewCondition g1 = true ∧ g1.WallPreview = some a ∧ g1.live = [a] :=
  ⟨rfl, rfl,
    live_preview_accounted start ⟨some (.fortniteClone ⟨false, "None"⟩)⟩ ⟨false, "None"⟩
      [Event.toggle, Event.tick 0 true, Event.toggle, Event.toggle,
        Event.tick 0 false, Event.tick 0 true] rfl rfl rfl (by decide) rfl rfl⟩

end FortniteClone
